import Mathlib

/-!
Verification of the reactive session engine example (src/src/server.rs).

The file embeds the data model and the handler routines of the repository
in Lean. The handler code (sample_dist, validate_range, CustomServer::new,
initialize, update, tick) is translated directly from src/src/server.rs.
The surrounding engine pieces that the repository consumes but whose code
is not under src/ (the InputPool and the changed! cursor mechanism from the
shiny_rs crate, the plot module, the markdown renderer) are modelled from
the specification, as marked on each definition.
-/

set_option autoImplicit false

namespace ShinyRs

/-- Modelled from the spec: the typed payload variants of an input value
(variant UInt, Float, String, Bool); floats are modelled as rationals. -/
inductive Payload where
  | uint (n : Nat)
  | float (q : Rat)
  | str (s : String)
  | boolean (b : Bool)
  deriving DecidableEq, Repr

/-- Modelled from the spec: the InputPool of the shiny_rs session, a mapping
from key to (payload, revision) plus the session-wide monotonic revision
counter. The entry list is lookup-first, so the most recent write to a key
shadows older entries. -/
structure InputPool where
  counter : Nat
  entries : List (String × Payload × Nat)
  deriving DecidableEq, Repr

namespace InputPool

/-- Modelled from the spec: a fresh, empty InputPool with the revision
counter at zero. -/
def new : InputPool := { counter := 0, entries := [] }

/-- Modelled from the spec: set increments the global revision counter and
stores the value for the key stamped with the new revision. -/
def set (p : InputPool) (k : String) (v : Payload) : InputPool :=
  { counter := p.counter + 1, entries := (k, v, p.counter + 1) :: p.entries }

/-- Find the current entry stored for a key, if any. -/
def findEntry (p : InputPool) (k : String) : Option (Payload × Nat) :=
  (p.entries.find? (fun e => e.1 == k)).map (fun e => e.2)

/-- Current revision of a key: the revision it was last written at, or 0 if
the key was never written. -/
def rev (p : InputPool) (k : String) : Nat :=
  ((p.findEntry k).map (fun e => e.2)).getD 0

/-- Modelled from the spec: typed lookup for unsigned integers; None when
the key is absent or the stored variant is not UInt. -/
def get_u64 (p : InputPool) (k : String) : Option Nat :=
  match p.findEntry k with
  | some (Payload.uint n, _) => some n
  | _ => none

/-- Modelled from the spec: typed lookup for floats; None when the key is
absent or the stored variant is not Float. -/
def get_f64 (p : InputPool) (k : String) : Option Rat :=
  match p.findEntry k with
  | some (Payload.float q, _) => some q
  | _ => none

/-- Modelled from the spec: typed lookup for strings; None when the key is
absent or the stored variant is not String. -/
def get_string (p : InputPool) (k : String) : Option String :=
  match p.findEntry k with
  | some (Payload.str s, _) => some s
  | _ => none

end InputPool

/-- Well-formedness invariant of an InputPool: every stored revision is at
most the global counter. It holds for the empty pool and is preserved by
set. -/
def PoolWF (p : InputPool) : Prop :=
  ∀ e ∈ p.entries, e.2.2 ≤ p.counter

/-- Modelled from the spec: a per-block change cursor, mapping each declared
dependency key to the last-observed revision. -/
abbrev Cursor : Type := List (String × Nat)

/-- Cursor lookup: the last-observed revision recorded for a key, 0 when the
key has no record yet. -/
def lookCur (c : Cursor) (k : String) : Nat :=
  ((c.find? (fun e => e.1 == k)).map (fun e => e.2)).getD 0

/-- Modelled from the spec: the changed! test. A block with dependency list
D is triggered when any dependency key's current revision differs from the
revision stored in the block's cursor. -/
def fires (p : InputPool) (c : Cursor) (D : List String) : Bool :=
  D.any (fun k => p.rev k != lookCur c k)

/-- Modelled from the spec: after a block is evaluated (triggered or not),
its cursor records the current revision of every declared dependency key. -/
def advance (p : InputPool) (D : List String) : Cursor :=
  D.map (fun k => (k, p.rev k))

/-- Apply a batch of writes to the pool, in order, each through set. -/
def applyWrites (p : InputPool) (ws : List (String × Payload)) : InputPool :=
  ws.foldl (fun q w => q.set w.1 w.2) p

/-- One evaluation cycle of a single reactive block with dependency list D:
the batch of writes is applied to the pool, the block's trigger condition is
sampled against the cursor recorded at the end of the previous cycle, and
the cursor is advanced to the new current revisions. -/
def cycleStep (D : List String) (st : InputPool × Cursor)
    (ws : List (String × Payload)) : (InputPool × Cursor) × Bool :=
  let pool := applyWrites st.1 ws
  ((pool, advance pool D), fires pool st.2 D)

/-- Run a sequence of evaluation cycles from a starting state, returning the
final state and the per-cycle fire flags. -/
def runCycles (D : List String) (st : InputPool × Cursor) :
    List (List (String × Payload)) → (InputPool × Cursor) × List Bool
  | [] => (st, [])
  | ws :: css =>
    let r := cycleStep D st ws
    let rest := runCycles D r.1 css
    (rest.1, r.2 :: rest.2)

/-- The initial session state: empty pool, empty cursor. -/
def initState : InputPool × Cursor := (InputPool.new, [])

/-- The outbound UI commands, following the spec's command schema. Props of
UpdateInput are modelled as a key/value list; Notify keeps the fields the
handlers set (id, html, kind, closeable). -/
inductive UICommand where
  | render (target : String) (html : String)
  | insertUI (selector : String) (position : String) (html : String)
  | removeUI (selector : String)
  | updateInput (target : String) (props : List (String × String))
  | notify (id : String) (html : String) (kind : String) (closeable : Bool)
  deriving DecidableEq, Repr

/-- The session command queue is append-only: each emitted command is pushed
at the back, so flush order equals production order. -/
def enqueue (q : List UICommand) (c : UICommand) : List UICommand :=
  q ++ [c]

/-- Modelled from the spec: the external collaborators the handler calls.
get_dist is the numeric sampler of the plot module (may fail, returning
none); get_plot renders two distributions to markup; markdown_to_html is
the total markdown renderer; generate_id supplies the notification id used
by validate_range. -/
structure Env where
  get_dist : Nat → Rat → Rat → Option (List Rat)
  get_plot : List Rat → List Rat → String
  markdown_to_html : String → String
  generate_id : String

/-- Translation of sample_dist (src/src/server.rs line 14): sample the
distribution and fall back to the empty sequence when the sampler fails. -/
def sample_dist (env : Env) (n : Nat) (mean sd : Rat) : List Rat :=
  (env.get_dist n mean sd).getD []

/-- Translation of validate_range (src/src/server.rs line 23): n passes when
it lies in 1..=10000; otherwise an error notification is enqueued on the
session queue and the check fails. -/
def validate_range (gid : String) (q : List UICommand) (n : Nat) :
    Bool × List UICommand :=
  if 1 ≤ n ∧ n ≤ 10000 then
    (true, q)
  else
    (false, enqueue q (UICommand.notify gid "Number out of range" "error" true))

/-- Translation of the CustomServer state (src/src/server.rs line 42): the
input pool, the current event name, the two cached distributions, and the
heartbeat configuration in seconds. -/
structure CustomServer where
  input : InputPool
  event : String
  dist1 : List Rat
  dist2 : List Rat
  hb_interval : Nat
  client_timeout : Nat
  deriving DecidableEq, Repr

/-- Translation of CustomServer::new (src/src/server.rs line 57): a fresh
session state with empty pool, Init event, empty distributions, a 5 second
heartbeat interval and a 10 second client timeout. -/
def CustomServer.new : CustomServer :=
  { input := InputPool.new
    event := "Init"
    dist1 := []
    dist2 := []
    hb_interval := 5
    client_timeout := 10 }

/-- The per-block change cursors of the seven reactive blocks declared by
update, in declaration order. -/
structure Cursors where
  markdown : Cursor
  insertBtn : Cursor
  removeBtn : Cursor
  group1 : Cursor
  group2 : Cursor
  text1 : Cursor
  text2 : Cursor

/-- Dependency keys of the markdown block. -/
def depsMarkdown : List String := ["markdown"]

/-- Dependency keys of the insert_ui action block. -/
def depsInsert : List String := ["insert_ui:shiny.action"]

/-- Dependency keys of the remove_ui action block. -/
def depsRemove : List String := ["remove_ui:shiny.action"]

/-- Dependency keys of the first distribution group block. -/
def depsGroup1 : List String :=
  ["n-1:shiny.number", "mean-1:shiny.number", "sd-1:shiny.number"]

/-- Dependency keys of the second distribution group block. -/
def depsGroup2 : List String :=
  ["n-2:shiny.number", "mean-2:shiny.number", "sd-2:shiny.number"]

/-- Dependency keys of the text1 block. -/
def depsText1 : List String := ["text1"]

/-- Dependency keys of the text2 block. -/
def depsText2 : List String := ["text2"]

/-- Translation of the initialize handler (src/src/server.rs line 86,
written here as initializeRoutine): sample both distributions from the
pool's current values with defaults n = 0, mean = 0.0, sd = 0.1, and render
the plot once to target plot1. -/
def initializeRoutine (env : Env) (s : CustomServer) :
    CustomServer × List UICommand :=
  let d1 := sample_dist env
    ((s.input.get_u64 "n-1:shiny.number").getD 0)
    ((s.input.get_f64 "mean-1:shiny.number").getD 0)
    ((s.input.get_f64 "sd-1:shiny.number").getD (1/10))
  let d2 := sample_dist env
    ((s.input.get_u64 "n-2:shiny.number").getD 0)
    ((s.input.get_f64 "mean-2:shiny.number").getD 0)
    ((s.input.get_f64 "sd-2:shiny.number").getD (1/10))
  let s1 := { s with dist1 := d1, dist2 := d2 }
  (s1, enqueue [] (UICommand.render "plot1" (env.get_plot s1.dist1 s1.dist2)))

/-- Translation of the markdown block of update (src/src/server.rs line
101): when its changed! test fires, push the oversize warning when the
input exceeds 5000 bytes, then push the rendered markdown. -/
def mdStep (env : Env) (pool : InputPool) (cur : Cursor)
    (q : List UICommand) : List UICommand :=
  if fires pool cur depsMarkdown then
    let md := (pool.get_string "markdown").getD ""
    let qa :=
      if md.utf8ByteSize > 5000 then
        enqueue q (UICommand.notify "markdown_warning"
          "Exceeded 5,000 characters!" "error" true)
      else q
    enqueue qa (UICommand.render "rendered_md" (env.markdown_to_html md))
  else q

/-- Translation of the insert_ui action block of update (src/src/server.rs
line 114): when fired, sample two fixed distributions and insert their plot
at the front of the insert_section container. -/
def insertStep (env : Env) (pool : InputPool) (cur : Cursor)
    (q : List UICommand) : List UICommand :=
  if fires pool cur depsInsert then
    let d1 := sample_dist env 50 (-1) (1/2)
    let d2 := sample_dist env 50 (-1) (1/2)
    enqueue q (UICommand.insertUI "#insert_section" "afterBegin"
      (env.get_plot d1 d2))
  else q

/-- Translation of the remove_ui action block of update (src/src/server.rs
line 124). -/
def removeStep (pool : InputPool) (cur : Cursor) (q : List UICommand) :
    List UICommand :=
  if fires pool cur depsRemove then
    enqueue q (UICommand.removeUI "#insert_section div")
  else q

/-- Translation of the first distribution group block of update
(src/src/server.rs line 127): when fired, validate n, resample dist1 only
when validation passes, and rebuild the plot either way. -/
def group1Step (env : Env) (pool : InputPool) (cur : Cursor)
    (s : CustomServer) (q : List UICommand) :
    CustomServer × List UICommand :=
  if fires pool cur depsGroup1 then
    let n := (pool.get_u64 "n-1:shiny.number").getD 0
    let v := validate_range env.generate_id q n
    let d := sample_dist env n
      ((pool.get_f64 "mean-1:shiny.number").getD 0)
      ((pool.get_f64 "sd-1:shiny.number").getD (1/10))
    let s' := if v.1 then { s with dist1 := d } else s
    (s', enqueue v.2 (UICommand.render "plot1" (env.get_plot s'.dist1 s'.dist2)))
  else (s, q)

/-- Translation of the second distribution group block of update
(src/src/server.rs line 138). -/
def group2Step (env : Env) (pool : InputPool) (cur : Cursor)
    (s : CustomServer) (q : List UICommand) :
    CustomServer × List UICommand :=
  if fires pool cur depsGroup2 then
    let n := (pool.get_u64 "n-2:shiny.number").getD 0
    let v := validate_range env.generate_id q n
    let d := sample_dist env n
      ((pool.get_f64 "mean-2:shiny.number").getD 0)
      ((pool.get_f64 "sd-2:shiny.number").getD (1/10))
    let s' := if v.1 then { s with dist2 := d } else s
    (s', enqueue v.2 (UICommand.render "plot1" (env.get_plot s'.dist1 s'.dist2)))
  else (s, q)

/-- Translation of the text1 mirror block of update (src/src/server.rs line
149). -/
def text1Step (pool : InputPool) (cur : Cursor) (q : List UICommand) :
    List UICommand :=
  if fires pool cur depsText1 then
    enqueue q (UICommand.updateInput "text2"
      [("label", (pool.get_string "text1").getD "")])
  else q

/-- Translation of the text2 mirror block of update (src/src/server.rs line
159). -/
def text2Step (pool : InputPool) (cur : Cursor) (q : List UICommand) :
    List UICommand :=
  if fires pool cur depsText2 then
    enqueue q (UICommand.updateInput "text1"
      [("label", (pool.get_string "text2").getD "")])
  else q

/-- The cursor table after one update cycle: every block's cursor advanced
to the pool's current revisions of its dependencies. -/
def advCursors (pool : InputPool) : Cursors :=
  { markdown := advance pool depsMarkdown
    insertBtn := advance pool depsInsert
    removeBtn := advance pool depsRemove
    group1 := advance pool depsGroup1
    group2 := advance pool depsGroup2
    text1 := advance pool depsText1
    text2 := advance pool depsText2 }

/-- Translation of the update handler (src/src/server.rs line 100): the
seven reactive blocks in declaration order, each guarded by its changed!
test, pushing commands onto the session queue in call order; all block
cursors are advanced to the pool's current revisions for the next cycle. -/
def update (env : Env) (s0 : CustomServer) (c0 : Cursors) :
    CustomServer × Cursors × List UICommand :=
  let pool := s0.input
  let q1 := mdStep env pool c0.markdown []
  let q2 := insertStep env pool c0.insertBtn q1
  let q3 := removeStep pool c0.removeBtn q2
  let r4 := group1Step env pool c0.group1 s0 q3
  let r5 := group2Step env pool c0.group2 r4.1 r4.2
  let q6 := text1Step pool c0.text1 r5.2
  let q7 := text2Step pool c0.text2 q6
  (r5.1, advCursors pool, q7)

/-- Translation of the tick handler (src/src/server.rs line 171): it does
nothing. -/
def tick (s : CustomServer) : CustomServer × List UICommand := (s, [])

/-- Commands produced by the markdown block alone (update, first block). -/
def blockMarkdown (env : Env) (pool : InputPool) (cur : Cursor) :
    List UICommand :=
  if fires pool cur depsMarkdown then
    let md := (pool.get_string "markdown").getD ""
    (if md.utf8ByteSize > 5000 then
      [UICommand.notify "markdown_warning" "Exceeded 5,000 characters!"
        "error" true]
     else []) ++
    [UICommand.render "rendered_md" (env.markdown_to_html md)]
  else []

/-- Commands produced by the insert_ui action block alone (update, second
block). -/
def blockInsert (env : Env) (pool : InputPool) (cur : Cursor) :
    List UICommand :=
  if fires pool cur depsInsert then
    [UICommand.insertUI "#insert_section" "afterBegin"
      (env.get_plot (sample_dist env 50 (-1) (1/2))
        (sample_dist env 50 (-1) (1/2)))]
  else []

/-- Commands produced by the remove_ui action block alone (update, third
block). -/
def blockRemove (pool : InputPool) (cur : Cursor) : List UICommand :=
  if fires pool cur depsRemove then
    [UICommand.removeUI "#insert_section div"]
  else []

/-- State change and commands of the first distribution group block alone
(update, fourth block). -/
def blockGroup1 (env : Env) (pool : InputPool) (cur : Cursor)
    (s : CustomServer) : CustomServer × List UICommand :=
  if fires pool cur depsGroup1 then
    let n := (pool.get_u64 "n-1:shiny.number").getD 0
    let v := validate_range env.generate_id [] n
    let d := sample_dist env n
      ((pool.get_f64 "mean-1:shiny.number").getD 0)
      ((pool.get_f64 "sd-1:shiny.number").getD (1/10))
    let s' := if v.1 then { s with dist1 := d } else s
    (s', v.2 ++ [UICommand.render "plot1" (env.get_plot s'.dist1 s'.dist2)])
  else (s, [])

/-- State change and commands of the second distribution group block alone
(update, fifth block). -/
def blockGroup2 (env : Env) (pool : InputPool) (cur : Cursor)
    (s : CustomServer) : CustomServer × List UICommand :=
  if fires pool cur depsGroup2 then
    let n := (pool.get_u64 "n-2:shiny.number").getD 0
    let v := validate_range env.generate_id [] n
    let d := sample_dist env n
      ((pool.get_f64 "mean-2:shiny.number").getD 0)
      ((pool.get_f64 "sd-2:shiny.number").getD (1/10))
    let s' := if v.1 then { s with dist2 := d } else s
    (s', v.2 ++ [UICommand.render "plot1" (env.get_plot s'.dist1 s'.dist2)])
  else (s, [])

/-- Commands produced by the text1 mirror block alone (update, sixth
block). -/
def blockText1 (pool : InputPool) (cur : Cursor) : List UICommand :=
  if fires pool cur depsText1 then
    [UICommand.updateInput "text2" [("label", (pool.get_string "text1").getD "")]]
  else []

/-- Commands produced by the text2 mirror block alone (update, seventh
block). -/
def blockText2 (pool : InputPool) (cur : Cursor) : List UICommand :=
  if fires pool cur depsText2 then
    [UICommand.updateInput "text1" [("label", (pool.get_string "text2").getD "")]]
  else []

/-- The session invariant tying a block's cursor to the pool at the end of
a cycle: the pool is well formed and the cursor records the current
revision of every dependency key. -/
def CycleInv (D : List String) (st : InputPool × Cursor) : Prop :=
  PoolWF st.1 ∧ ∀ k ∈ D, lookCur st.2 k = st.1.rev k

/-- A concrete environment for evaluating the embedding on closed inputs:
the sampler always fails, plot and markdown rendering are fixed, the
generated notification id is fixed. -/
def env0 : Env :=
  { get_dist := fun _ _ _ => none
    get_plot := fun _ _ => "P"
    markdown_to_html := fun s => s
    generate_id := "gid" }

/-- The all-empty cursor table, as before any block has run. -/
def cursors0 : Cursors :=
  { markdown := []
    insertBtn := []
    removeBtn := []
    group1 := []
    group2 := []
    text1 := []
    text2 := [] }

/-- A session whose pool holds one write, the insert_ui action. -/
def sInsert : CustomServer :=
  { CustomServer.new with
      input := InputPool.new.set "insert_ui:shiny.action" (Payload.uint 1) }

/-- A session whose pool holds one write, a short markdown string. -/
def sMd : CustomServer :=
  { CustomServer.new with
      input := InputPool.new.set "markdown" (Payload.str "hello") }

/-- A session whose pool holds one write, the text1 string. -/
def sText : CustomServer :=
  { CustomServer.new with
      input := InputPool.new.set "text1" (Payload.str "hi") }

/-- A session whose pool holds an out-of-range n-1, a valid n-2 and a text1
value. -/
def sRange : CustomServer :=
  { CustomServer.new with
      input := ((InputPool.new.set "n-1:shiny.number"
        (Payload.uint 10001)).set "n-2:shiny.number"
        (Payload.uint 7)).set "text1" (Payload.str "hi") }

@[simp]
theorem InputPool.counter_set (p : InputPool) (k : String) (v : Payload) :
    (p.set k v).counter = p.counter + 1 := rfl

@[simp]
theorem InputPool.rev_set_self (p : InputPool) (k : String) (v : Payload) :
    (p.set k v).rev k = p.counter + 1 := by
  simp [InputPool.set, InputPool.rev, InputPool.findEntry, List.find?]

theorem InputPool.rev_set_other (p : InputPool) (k k' : String) (v : Payload)
    (h : k' ≠ k) : (p.set k v).rev k' = p.rev k' := by
  have hb : (k == k') = false := beq_eq_false_iff_ne.mpr (Ne.symm h)
  simp [InputPool.set, InputPool.rev, InputPool.findEntry, List.find?, hb]

theorem PoolWF.new : PoolWF InputPool.new := by
  intro e he
  simp [InputPool.new] at he

theorem PoolWF.set {p : InputPool} (hp : PoolWF p) (k : String) (v : Payload) :
    PoolWF (p.set k v) := by
  intro e he
  simp only [InputPool.set, List.mem_cons] at he
  rcases he with rfl | he
  · simp [InputPool.set]
  · exact le_trans (hp e he) (Nat.le_succ _)

theorem InputPool.rev_le_counter (p : InputPool) (hp : PoolWF p)
    (k : String) : p.rev k ≤ p.counter := by
  unfold InputPool.rev InputPool.findEntry
  cases hfind : p.entries.find? (fun e => e.1 == k) with
  | none => simp
  | some e =>
    have he : e ∈ p.entries := List.mem_of_find?_eq_some hfind
    simpa using hp e he

@[simp]
theorem applyWrites_nil (p : InputPool) : applyWrites p [] = p := rfl

@[simp]
theorem applyWrites_cons (p : InputPool) (w : String × Payload)
    (ws : List (String × Payload)) :
    applyWrites p (w :: ws) = applyWrites (p.set w.1 w.2) ws := rfl

theorem PoolWF.applyWrites {p : InputPool} (hp : PoolWF p)
    (ws : List (String × Payload)) : PoolWF (ShinyRs.applyWrites p ws) := by
  induction ws generalizing p with
  | nil => exact hp
  | cons w ws ih => exact ih (hp.set w.1 w.2)

theorem counter_le_applyWrites (p : InputPool) (ws : List (String × Payload)) :
    p.counter ≤ (applyWrites p ws).counter := by
  induction ws generalizing p with
  | nil => exact le_refl _
  | cons w ws ih =>
    exact le_trans (Nat.le_succ _) (ih (p.set w.1 w.2))

theorem rev_le_applyWrites (p : InputPool) (ws : List (String × Payload))
    (k : String) (hp : PoolWF p) :
    p.rev k ≤ (applyWrites p ws).rev k := by
  induction ws generalizing p with
  | nil => exact le_refl _
  | cons w ws ih =>
    have h1 : p.rev k ≤ (p.set w.1 w.2).rev k := by
      by_cases hk : k = w.1
      · subst hk
        rw [InputPool.rev_set_self]
        exact le_trans (p.rev_le_counter hp _) (Nat.le_succ _)
      · rw [p.rev_set_other w.1 k w.2 hk]
    exact le_trans h1 (ih (p.set w.1 w.2) (hp.set w.1 w.2))

theorem rev_applyWrites_of_not_written (p : InputPool)
    (ws : List (String × Payload)) (k : String)
    (h : k ∉ ws.map Prod.fst) :
    (applyWrites p ws).rev k = p.rev k := by
  induction ws generalizing p with
  | nil => rfl
  | cons w ws ih =>
    simp only [List.map_cons, List.mem_cons, not_or] at h
    rw [applyWrites_cons, ih (p.set w.1 w.2) h.2,
      p.rev_set_other w.1 k w.2 h.1]

theorem counter_lt_rev_applyWrites (p : InputPool)
    (ws : List (String × Payload)) (k : String) (hp : PoolWF p)
    (h : k ∈ ws.map Prod.fst) :
    p.counter < (applyWrites p ws).rev k := by
  induction ws generalizing p with
  | nil => simp at h
  | cons w ws ih =>
    by_cases hk : k ∈ ws.map Prod.fst
    · exact lt_trans (Nat.lt_succ_self _) (ih (p.set w.1 w.2) (hp.set w.1 w.2) hk)
    · have hk1 : k = w.1 := by
        simp only [List.map_cons, List.mem_cons] at h
        tauto
      rw [applyWrites_cons, rev_applyWrites_of_not_written _ ws k hk, hk1,
        InputPool.rev_set_self]
      exact Nat.lt_succ_self _

theorem lookCur_cons (a : String × Nat) (c : Cursor) (k : String) :
    lookCur (a :: c) k = if a.1 = k then a.2 else lookCur c k := by
  by_cases h : a.1 = k
  · simp [lookCur, List.find?, h]
  · have hb : (a.1 == k) = false := beq_eq_false_iff_ne.mpr h
    simp [lookCur, List.find?, h, hb]

theorem lookCur_advance (p : InputPool) (D : List String) (k : String)
    (h : k ∈ D) : lookCur (advance p D) k = p.rev k := by
  induction D with
  | nil => simp at h
  | cons d D ih =>
    rw [show advance p (d :: D) = (d, p.rev d) :: advance p D from rfl,
      lookCur_cons]
    by_cases hd : d = k
    · subst hd
      simp
    · have hk : k ∈ D := by
        rcases List.mem_cons.mp h with h1 | h1
        · exact absurd h1.symm hd
        · exact h1
      simp [hd, ih hk]

theorem fires_eq_true_iff (p : InputPool) (c : Cursor) (D : List String) :
    fires p c D = true ↔ ∃ k ∈ D, p.rev k ≠ lookCur c k := by
  simp [fires]

theorem fires_step_iff (D : List String) (p : InputPool) (c : Cursor)
    (ws : List (String × Payload)) (hWF : PoolWF p)
    (hcur : ∀ k ∈ D, lookCur c k = p.rev k) :
    (fires (applyWrites p ws) c D = true ↔
      ∃ k ∈ D, lookCur c k < (applyWrites p ws).rev k) := by
  rw [fires_eq_true_iff]
  constructor
  · rintro ⟨k, hk, hne⟩
    refine ⟨k, hk, ?_⟩
    have hle : lookCur c k ≤ (applyWrites p ws).rev k := by
      rw [hcur k hk]
      exact rev_le_applyWrites p ws k hWF
    exact lt_of_le_of_ne hle (fun hx => hne hx.symm)
  · rintro ⟨k, hk, hlt⟩
    exact ⟨k, hk, ne_of_gt hlt⟩

theorem cycleInv_init (D : List String) : CycleInv D initState := by
  refine ⟨PoolWF.new, ?_⟩
  intro k hk
  rfl

theorem cycleInv_cycleStep (D : List String) (st : InputPool × Cursor)
    (ws : List (String × Payload)) (h : CycleInv D st) :
    CycleInv D (cycleStep D st ws).1 := by
  obtain ⟨hWF, hcur⟩ := h
  refine ⟨hWF.applyWrites ws, ?_⟩
  intro k hk
  simpa [cycleStep] using lookCur_advance (applyWrites st.1 ws) D k hk

theorem cycleInv_runCycles (D : List String) (st : InputPool × Cursor)
    (css : List (List (String × Payload))) (h : CycleInv D st) :
    CycleInv D (runCycles D st css).1 := by
  induction css generalizing st with
  | nil => exact h
  | cons ws css ih => exact ih (cycleStep D st ws).1 (cycleInv_cycleStep D st ws h)

@[simp]
theorem validate_range_fst (gid : String) (q : List UICommand) (n : Nat) :
    (validate_range gid q n).1 = decide (1 ≤ n ∧ n ≤ 10000) := by
  by_cases h : 1 ≤ n ∧ n ≤ 10000 <;> simp [validate_range, h]

@[simp]
theorem validate_range_snd (gid : String) (q : List UICommand) (n : Nat) :
    (validate_range gid q n).2 =
      q ++ (if 1 ≤ n ∧ n ≤ 10000 then []
            else [UICommand.notify gid "Number out of range" "error" true]) := by
  by_cases h : 1 ≤ n ∧ n ≤ 10000 <;> simp [validate_range, enqueue, h]

theorem mdStep_eq (env : Env) (pool : InputPool) (cur : Cursor)
    (q : List UICommand) :
    mdStep env pool cur q = q ++ blockMarkdown env pool cur := by
  unfold mdStep blockMarkdown
  by_cases h1 : fires pool cur depsMarkdown <;>
    by_cases h2 : 5000 < ((pool.get_string "markdown").getD "").utf8ByteSize <;>
    simp [h1, h2, enqueue]

theorem insertStep_eq (env : Env) (pool : InputPool) (cur : Cursor)
    (q : List UICommand) :
    insertStep env pool cur q = q ++ blockInsert env pool cur := by
  unfold insertStep blockInsert
  split_ifs <;> simp [enqueue]

theorem removeStep_eq (pool : InputPool) (cur : Cursor) (q : List UICommand) :
    removeStep pool cur q = q ++ blockRemove pool cur := by
  unfold removeStep blockRemove
  split_ifs <;> simp [enqueue]

theorem group1Step_eq (env : Env) (pool : InputPool) (cur : Cursor)
    (s : CustomServer) (q : List UICommand) :
    group1Step env pool cur s q =
      ((blockGroup1 env pool cur s).1, q ++ (blockGroup1 env pool cur s).2) := by
  unfold group1Step blockGroup1
  simp only [validate_range_fst, validate_range_snd, List.nil_append]
  split_ifs <;> simp [enqueue]

theorem group2Step_eq (env : Env) (pool : InputPool) (cur : Cursor)
    (s : CustomServer) (q : List UICommand) :
    group2Step env pool cur s q =
      ((blockGroup2 env pool cur s).1, q ++ (blockGroup2 env pool cur s).2) := by
  unfold group2Step blockGroup2
  simp only [validate_range_fst, validate_range_snd, List.nil_append]
  split_ifs <;> simp [enqueue]

theorem text1Step_eq (pool : InputPool) (cur : Cursor) (q : List UICommand) :
    text1Step pool cur q = q ++ blockText1 pool cur := by
  unfold text1Step blockText1
  split_ifs <;> simp [enqueue]

theorem text2Step_eq (pool : InputPool) (cur : Cursor) (q : List UICommand) :
    text2Step pool cur q = q ++ blockText2 pool cur := by
  unfold text2Step blockText2
  split_ifs <;> simp [enqueue]

/-- Decomposition of one update pass: the commands flushed by update are the
concatenation, in declaration order, of the commands each reactive block
produces on its own, and the final server state is the result of threading
the state through the two distribution group blocks. -/
theorem update_decomp (env : Env) (s : CustomServer) (c : Cursors) :
    update env s c =
      ((blockGroup2 env s.input c.group2 (blockGroup1 env s.input c.group1 s).1).1,
       advCursors s.input,
       blockMarkdown env s.input c.markdown ++
         blockInsert env s.input c.insertBtn ++
         blockRemove s.input c.removeBtn ++
         (blockGroup1 env s.input c.group1 s).2 ++
         (blockGroup2 env s.input c.group2 (blockGroup1 env s.input c.group1 s).1).2 ++
         blockText1 s.input c.text1 ++
         blockText2 s.input c.text2) := by
  unfold update
  simp only [mdStep_eq, insertStep_eq, removeStep_eq, group1Step_eq,
    group2Step_eq, text1Step_eq, text2Step_eq, List.nil_append,
    List.append_assoc]

theorem blockGroup1_dist2 (env : Env) (pool : InputPool) (cur : Cursor)
    (s : CustomServer) : (blockGroup1 env pool cur s).1.dist2 = s.dist2 := by
  unfold blockGroup1
  split_ifs <;> simp [apply_ite CustomServer.dist2]

theorem blockGroup2_dist1 (env : Env) (pool : InputPool) (cur : Cursor)
    (s : CustomServer) : (blockGroup2 env pool cur s).1.dist1 = s.dist1 := by
  unfold blockGroup2
  split_ifs <;> simp [apply_ite CustomServer.dist1]

theorem blockGroup1_invalid (env : Env) (pool : InputPool) (cur : Cursor)
    (s : CustomServer) (h : fires pool cur depsGroup1 = true)
    (hn : ¬(1 ≤ (pool.get_u64 "n-1:shiny.number").getD 0 ∧
      (pool.get_u64 "n-1:shiny.number").getD 0 ≤ 10000)) :
    blockGroup1 env pool cur s =
      (s, [UICommand.notify env.generate_id "Number out of range" "error" true,
        UICommand.render "plot1" (env.get_plot s.dist1 s.dist2)]) := by
  unfold blockGroup1
  simp [h, hn, validate_range, enqueue]

theorem blockGroup2_invalid (env : Env) (pool : InputPool) (cur : Cursor)
    (s : CustomServer) (h : fires pool cur depsGroup2 = true)
    (hn : ¬(1 ≤ (pool.get_u64 "n-2:shiny.number").getD 0 ∧
      (pool.get_u64 "n-2:shiny.number").getD 0 ≤ 10000)) :
    blockGroup2 env pool cur s =
      (s, [UICommand.notify env.generate_id "Number out of range" "error" true,
        UICommand.render "plot1" (env.get_plot s.dist1 s.dist2)]) := by
  unfold blockGroup2
  simp [h, hn, validate_range, enqueue]

theorem blockGroup2_valid_fst (env : Env) (pool : InputPool) (cur : Cursor)
    (s : CustomServer) (h : fires pool cur depsGroup2 = true)
    (hv : 1 ≤ (pool.get_u64 "n-2:shiny.number").getD 0 ∧
      (pool.get_u64 "n-2:shiny.number").getD 0 ≤ 10000) :
    (blockGroup2 env pool cur s).1 =
      { s with dist2 :=
          (sample_dist env ((pool.get_u64 "n-2:shiny.number").getD 0)
            ((pool.get_f64 "mean-2:shiny.number").getD 0)
            ((pool.get_f64 "sd-2:shiny.number").getD (1/10))) } := by
  unfold blockGroup2
  simp [h, hv.1, hv.2, validate_range]

theorem blockMarkdown_fired (env : Env) (pool : InputPool) (cur : Cursor)
    (h : fires pool cur depsMarkdown = true) :
    blockMarkdown env pool cur =
      (if 5000 < ((pool.get_string "markdown").getD "").utf8ByteSize then
        [UICommand.notify "markdown_warning" "Exceeded 5,000 characters!"
          "error" true,
         UICommand.render "rendered_md"
          (env.markdown_to_html ((pool.get_string "markdown").getD ""))]
      else
        [UICommand.render "rendered_md"
          (env.markdown_to_html ((pool.get_string "markdown").getD ""))]) := by
  unfold blockMarkdown
  by_cases h2 : 5000 < ((pool.get_string "markdown").getD "").utf8ByteSize <;>
    simp [h, h2]

theorem blockText1_fired (pool : InputPool) (cur : Cursor)
    (h : fires pool cur depsText1 = true) :
    blockText1 pool cur =
      [UICommand.updateInput "text2"
        [("label", (pool.get_string "text1").getD "")]] := by
  unfold blockText1
  simp [h]

theorem blockText2_fired (pool : InputPool) (cur : Cursor)
    (h : fires pool cur depsText2 = true) :
    blockText2 pool cur =
      [UICommand.updateInput "text1"
        [("label", (pool.get_string "text2").getD "")]] := by
  unfold blockText2
  simp [h]

theorem insertUI_not_mem_blockMarkdown (env : Env) (pool : InputPool)
    (cur : Cursor) (sel pos html : String) :
    UICommand.insertUI sel pos html ∉ blockMarkdown env pool cur := by
  unfold blockMarkdown
  split_ifs <;> simp

theorem blockInsert_mem_eq (env : Env) (pool : InputPool) (cur : Cursor)
    (sel pos html : String)
    (h : UICommand.insertUI sel pos html ∈ blockInsert env pool cur) :
    sel = "#insert_section" ∧ pos = "afterBegin" := by
  unfold blockInsert at h
  split_ifs at h
  · simp at h
    exact ⟨h.1, h.2.1⟩
  · simp at h

theorem insertUI_not_mem_blockRemove (pool : InputPool) (cur : Cursor)
    (sel pos html : String) :
    UICommand.insertUI sel pos html ∉ blockRemove pool cur := by
  unfold blockRemove
  split_ifs <;> simp

theorem insertUI_not_mem_blockGroup1 (env : Env) (pool : InputPool)
    (cur : Cursor) (s : CustomServer) (sel pos html : String) :
    UICommand.insertUI sel pos html ∉ (blockGroup1 env pool cur s).2 := by
  unfold blockGroup1
  simp only [validate_range_fst, validate_range_snd, decide_eq_true_eq,
    List.nil_append]
  split_ifs <;> simp

theorem insertUI_not_mem_blockGroup2 (env : Env) (pool : InputPool)
    (cur : Cursor) (s : CustomServer) (sel pos html : String) :
    UICommand.insertUI sel pos html ∉ (blockGroup2 env pool cur s).2 := by
  unfold blockGroup2
  simp only [validate_range_fst, validate_range_snd, decide_eq_true_eq,
    List.nil_append]
  split_ifs <;> simp

theorem insertUI_not_mem_blockText1 (pool : InputPool) (cur : Cursor)
    (sel pos html : String) :
    UICommand.insertUI sel pos html ∉ blockText1 pool cur := by
  unfold blockText1
  split_ifs <;> simp

theorem insertUI_not_mem_blockText2 (pool : InputPool) (cur : Cursor)
    (sel pos html : String) :
    UICommand.insertUI sel pos html ∉ blockText2 pool cur := by
  unfold blockText2
  split_ifs <;> simp

/-- C1: for any sequence of writes to the InputPool, a reactive block with
dependency set D fires on a cycle iff at least one key in D has a revision
strictly greater than the cursor value recorded for it at the end of the
previous cycle; a write to a key of D (even with an identical value) always
triggers, and a cycle whose writes touch no key of D never triggers. The
previous cycles are css, the current cycle's write batch is ws. -/
theorem changed_fires_iff_revision_above_cursor (D : List String)
    (css : List (List (String × Payload))) (ws : List (String × Payload)) :
    (fires (applyWrites (runCycles D initState css).1.1 ws)
        (runCycles D initState css).1.2 D = true ↔
      ∃ k ∈ D, lookCur (runCycles D initState css).1.2 k <
        (applyWrites (runCycles D initState css).1.1 ws).rev k)
    ∧ (∀ k ∈ D, k ∈ ws.map Prod.fst →
        fires (applyWrites (runCycles D initState css).1.1 ws)
          (runCycles D initState css).1.2 D = true)
    ∧ ((∀ k ∈ D, k ∉ ws.map Prod.fst) →
        fires (applyWrites (runCycles D initState css).1.1 ws)
          (runCycles D initState css).1.2 D = false) := by
  obtain ⟨hWF, hcur⟩ := cycleInv_runCycles D initState css (cycleInv_init D)
  refine ⟨fires_step_iff D _ _ ws hWF hcur, ?_, ?_⟩
  · intro k hk hw
    rw [fires_step_iff D _ _ ws hWF hcur]
    refine ⟨k, hk, ?_⟩
    rw [hcur k hk]
    exact lt_of_le_of_lt
      ((runCycles D initState css).1.1.rev_le_counter hWF k)
      (counter_lt_rev_applyWrites _ ws k hWF hw)
  · intro hno
    rw [← Bool.not_eq_true, fires_eq_true_iff]
    push_neg
    intro k hk
    rw [rev_applyWrites_of_not_written _ ws k (hno k hk), hcur k hk]

/-- Witness for C1: after one cycle writing key a, a second write of the
identical value to a still triggers the block. -/
theorem changed_fires_revision_check :
    fires (applyWrites (runCycles ["a"] initState [[("a", Payload.uint 5)]]).1.1
        [("a", Payload.uint 5)])
      (runCycles ["a"] initState [[("a", Payload.uint 5)]]).1.2 ["a"] = true :=
  (changed_fires_iff_revision_above_cursor ["a"] [[("a", Payload.uint 5)]]
    [("a", Payload.uint 5)]).2.1 "a" (by decide) (by decide)

/-- C2: validate_range accepts n iff 1 ≤ n ≤ 10000 with inclusive
boundaries; in range it leaves the queue untouched, out of range it fails
and enqueues exactly one error notification. -/
theorem validate_range_boundaries (gid : String) (q : List UICommand)
    (n : Nat) :
    ((validate_range gid q n).1 = true ↔ 1 ≤ n ∧ n ≤ 10000)
    ∧ (1 ≤ n ∧ n ≤ 10000 → validate_range gid q n = (true, q))
    ∧ (¬(1 ≤ n ∧ n ≤ 10000) →
        validate_range gid q n =
          (false,
            q ++ [UICommand.notify gid "Number out of range" "error" true])) := by
  by_cases h : 1 ≤ n ∧ n ≤ 10000 <;> simp [validate_range, enqueue, h]

/-- Witness for C2: the boundary values 1 and 10000 pass silently while 0
and 10001 fail with a single error notification. -/
theorem validate_range_boundaries_check :
    validate_range "gid" [] 0 =
      (false, [UICommand.notify "gid" "Number out of range" "error" true])
    ∧ validate_range "gid" [] 1 = (true, [])
    ∧ validate_range "gid" [] 10000 = (true, [])
    ∧ validate_range "gid" [] 10001 =
      (false, [UICommand.notify "gid" "Number out of range" "error" true]) :=
  ⟨by simpa using (validate_range_boundaries "gid" [] 0).2.2 (by decide),
   (validate_range_boundaries "gid" [] 1).2.1 (by decide),
   (validate_range_boundaries "gid" [] 10000).2.1 (by decide),
   by simpa using (validate_range_boundaries "gid" [] 10001).2.2 (by decide)⟩

/-- C3: a distribution group block triggered with an out-of-range n leaves
its distribution unchanged (reject and retain), and the other triggered
blocks of the same cycle still run: the text1 block still emits its
UpdateInput command and the second group with a valid n still resamples
dist2. -/
theorem invalid_input_retains_dist_siblings_run (env : Env)
    (s : CustomServer) (c : Cursors) :
    (fires s.input c.group1 depsGroup1 = true →
      ¬(1 ≤ (s.input.get_u64 "n-1:shiny.number").getD 0 ∧
        (s.input.get_u64 "n-1:shiny.number").getD 0 ≤ 10000) →
      (update env s c).1.dist1 = s.dist1)
    ∧ (fires s.input c.group2 depsGroup2 = true →
      ¬(1 ≤ (s.input.get_u64 "n-2:shiny.number").getD 0 ∧
        (s.input.get_u64 "n-2:shiny.number").getD 0 ≤ 10000) →
      (update env s c).1.dist2 = s.dist2)
    ∧ (fires s.input c.group1 depsGroup1 = true →
      ¬(1 ≤ (s.input.get_u64 "n-1:shiny.number").getD 0 ∧
        (s.input.get_u64 "n-1:shiny.number").getD 0 ≤ 10000) →
      fires s.input c.text1 depsText1 = true →
      UICommand.updateInput "text2"
        [("label", (s.input.get_string "text1").getD "")] ∈ (update env s c).2.2)
    ∧ (fires s.input c.group1 depsGroup1 = true →
      ¬(1 ≤ (s.input.get_u64 "n-1:shiny.number").getD 0 ∧
        (s.input.get_u64 "n-1:shiny.number").getD 0 ≤ 10000) →
      fires s.input c.group2 depsGroup2 = true →
      (1 ≤ (s.input.get_u64 "n-2:shiny.number").getD 0 ∧
        (s.input.get_u64 "n-2:shiny.number").getD 0 ≤ 10000) →
      (update env s c).1.dist2 = sample_dist env
        ((s.input.get_u64 "n-2:shiny.number").getD 0)
        ((s.input.get_f64 "mean-2:shiny.number").getD 0)
        ((s.input.get_f64 "sd-2:shiny.number").getD (1/10))) := by
  refine ⟨?_, ?_, ?_, ?_⟩
  · intro h4 hn
    simp only [update_decomp]
    rw [blockGroup1_invalid env s.input c.group1 s h4 hn, blockGroup2_dist1]
  · intro h5 hn
    simp only [update_decomp]
    rw [blockGroup2_invalid env s.input c.group2 _ h5 hn]
    exact blockGroup1_dist2 env s.input c.group1 s
  · intro h4 hn h6
    rw [update_decomp]
    simp [List.mem_append, blockText1_fired s.input c.text1 h6]
  · intro h4 hn h5 hv
    simp only [update_decomp]
    rw [blockGroup1_invalid env s.input c.group1 s h4 hn,
      blockGroup2_valid_fst env s.input c.group2 _ h5 hv]

/-- Witness for C3: with an out-of-range n-1, a valid n-2 and a text1 value
all written, dist1 is retained, the text mirror command is still emitted
and dist2 is still resampled. -/
theorem invalid_input_retains_check :
    (update env0 sRange cursors0).1.dist1 = sRange.dist1
    ∧ UICommand.updateInput "text2"
        [("label", (sRange.input.get_string "text1").getD "")]
        ∈ (update env0 sRange cursors0).2.2
    ∧ (update env0 sRange cursors0).1.dist2 =
        sample_dist env0 ((sRange.input.get_u64 "n-2:shiny.number").getD 0)
          ((sRange.input.get_f64 "mean-2:shiny.number").getD 0)
          ((sRange.input.get_f64 "sd-2:shiny.number").getD (1/10)) :=
  ⟨(invalid_input_retains_dist_siblings_run env0 sRange cursors0).1
      (by decide) (by decide),
   (invalid_input_retains_dist_siblings_run env0 sRange cursors0).2.2.1
      (by decide) (by decide) (by decide),
   (invalid_input_retains_dist_siblings_run env0 sRange cursors0).2.2.2
      (by decide) (by decide) (by decide) (by decide)⟩

/-- C4: when the markdown block is triggered, a markdown input longer than
5000 bytes makes update enqueue the markdown_warning error notification and
the Render of the converted HTML, in that order, while an input of at most
5000 bytes enqueues only the Render; either way these commands open the
cycle's batch. -/
theorem markdown_oversize_warning_and_render (env : Env) (s : CustomServer)
    (c : Cursors) (h : fires s.input c.markdown depsMarkdown = true) :
    ∃ rest, (update env s c).2.2 =
      (if 5000 < ((s.input.get_string "markdown").getD "").utf8ByteSize then
        [UICommand.notify "markdown_warning" "Exceeded 5,000 characters!"
          "error" true,
         UICommand.render "rendered_md"
          (env.markdown_to_html ((s.input.get_string "markdown").getD ""))]
      else
        [UICommand.render "rendered_md"
          (env.markdown_to_html ((s.input.get_string "markdown").getD ""))]) ++
      rest := by
  refine ⟨blockInsert env s.input c.insertBtn ++
    (blockRemove s.input c.removeBtn ++
      ((blockGroup1 env s.input c.group1 s).2 ++
        ((blockGroup2 env s.input c.group2
            (blockGroup1 env s.input c.group1 s).1).2 ++
          (blockText1 s.input c.text1 ++ blockText2 s.input c.text2)))), ?_⟩
  rw [update_decomp]
  simp only
  rw [blockMarkdown_fired env s.input c.markdown h]
  simp [List.append_assoc]

/-- Witness for C4: a five byte markdown input yields only the render
command at the head of the batch. -/
theorem markdown_oversize_check :
    ∃ rest, (update env0 sMd cursors0).2.2 =
      (if 5000 < ((sMd.input.get_string "markdown").getD "").utf8ByteSize then
        [UICommand.notify "markdown_warning" "Exceeded 5,000 characters!"
          "error" true,
         UICommand.render "rendered_md"
          (env0.markdown_to_html ((sMd.input.get_string "markdown").getD ""))]
      else
        [UICommand.render "rendered_md"
          (env0.markdown_to_html ((sMd.input.get_string "markdown").getD ""))]) ++
      rest :=
  markdown_oversize_warning_and_render env0 sMd cursors0 (by decide)

/-- C5: within one update invocation the seven reactive blocks are evaluated
in declaration order (markdown, insert_ui, remove_ui, n-1 group, n-2 group,
text1, text2) and the outbound queue is exactly the concatenation of their
commands in that order. -/
theorem update_commands_declaration_order (env : Env) (s : CustomServer)
    (c : Cursors) :
    (update env s c).2.2 =
      blockMarkdown env s.input c.markdown ++
      blockInsert env s.input c.insertBtn ++
      blockRemove s.input c.removeBtn ++
      (blockGroup1 env s.input c.group1 s).2 ++
      (blockGroup2 env s.input c.group2
        (blockGroup1 env s.input c.group1 s).1).2 ++
      blockText1 s.input c.text1 ++
      blockText2 s.input c.text2 := by
  rw [update_decomp]

/-- C6: every InsertUI command update can produce targets the
insert_section selector with position afterBegin, and the queue is FIFO:
enqueueing A then B lists A before B. -/
theorem insert_ui_position_and_fifo (env : Env) (s : CustomServer)
    (c : Cursors) :
    (∀ sel pos html,
      UICommand.insertUI sel pos html ∈ (update env s c).2.2 →
        sel = "#insert_section" ∧ pos = "afterBegin")
    ∧ (∀ (q : List UICommand) (a b : UICommand),
        enqueue (enqueue q a) b = q ++ [a, b]) := by
  constructor
  · intro sel pos html hmem
    rw [update_decomp] at hmem
    simp only [List.mem_append] at hmem
    rcases hmem with ((((((h | h) | h) | h) | h) | h) | h)
    · exact absurd h (insertUI_not_mem_blockMarkdown env s.input c.markdown sel pos html)
    · exact blockInsert_mem_eq env s.input c.insertBtn sel pos html h
    · exact absurd h (insertUI_not_mem_blockRemove s.input c.removeBtn sel pos html)
    · exact absurd h (insertUI_not_mem_blockGroup1 env s.input c.group1 s sel pos html)
    · exact absurd h (insertUI_not_mem_blockGroup2 env s.input c.group2 _ sel pos html)
    · exact absurd h (insertUI_not_mem_blockText1 s.input c.text1 sel pos html)
    · exact absurd h (insertUI_not_mem_blockText2 s.input c.text2 sel pos html)
  · intro q a b
    simp [enqueue]

/-- Witness for C6: the insert command actually produced by a session whose
insert_ui action fired has the insert_section selector and afterBegin
position. -/
theorem insert_ui_position_check :
    ("#insert_section" : String) = "#insert_section"
    ∧ ("afterBegin" : String) = "afterBegin" :=
  (insert_ui_position_and_fifo env0 sInsert cursors0).1
    "#insert_section" "afterBegin" "P" (by decide)

/-- C7: sample_dist is total: a failing sampler yields the empty sequence
and a successful one yields its sample; the engine treats the empty result
as valid input, so a session initialized under an always-failing sampler
still emits its normal first render with an empty plot. -/
theorem sample_dist_total_and_empty_on_failure (env : Env) (n : Nat)
    (mean sd : Rat) :
    (env.get_dist n mean sd = none → sample_dist env n mean sd = [])
    ∧ (∀ l, env.get_dist n mean sd = some l → sample_dist env n mean sd = l)
    ∧ ((∀ m x y, env.get_dist m x y = none) → ∀ s : CustomServer,
        (initializeRoutine env s).2 =
          [UICommand.render "plot1" (env.get_plot [] [])]) := by
  refine ⟨?_, ?_, ?_⟩
  · intro h
    simp [sample_dist, h]
  · intro l h
    simp [sample_dist, h]
  · intro hfail s
    unfold initializeRoutine
    simp [sample_dist, hfail, enqueue]

/-- Witness for C7: the always-failing sampler yields the empty sequence. -/
theorem sample_dist_failure_check : sample_dist env0 3 0 1 = [] :=
  (sample_dist_total_and_empty_on_failure env0 3 0 1).1 rfl

/-- C8: a session built by CustomServer.new starts with a 5 second
heartbeat interval, a 10 second client timeout, an empty InputPool, empty
dist1 and dist2, and event Init. -/
theorem new_session_defaults :
    CustomServer.new.hb_interval = 5
    ∧ CustomServer.new.client_timeout = 10
    ∧ CustomServer.new.input = InputPool.new
    ∧ CustomServer.new.input.entries = []
    ∧ CustomServer.new.input.counter = 0
    ∧ CustomServer.new.dist1 = ([] : List Rat)
    ∧ CustomServer.new.dist2 = ([] : List Rat)
    ∧ CustomServer.new.event = "Init" :=
  ⟨rfl, rfl, rfl, rfl, rfl, rfl, rfl, rfl⟩

/-- C9: initialize reads every numeric input through a typed lookup with
caller-supplied defaults (n falls back to 0, mean to 0.0, sd to 0.1),
samples both distributions with those values and enqueues exactly one
Render command targeting plot1; it never fails on missing input, and on a
pool missing all inputs both distributions use the defaults. -/
theorem initialize_single_render_and_defaults (env : Env) (s : CustomServer) :
    ((initializeRoutine env s).2 =
      [UICommand.render "plot1"
        (env.get_plot (initializeRoutine env s).1.dist1
          (initializeRoutine env s).1.dist2)])
    ∧ ((initializeRoutine env s).1.dist1 = sample_dist env
        ((s.input.get_u64 "n-1:shiny.number").getD 0)
        ((s.input.get_f64 "mean-1:shiny.number").getD 0)
        ((s.input.get_f64 "sd-1:shiny.number").getD (1/10)))
    ∧ ((initializeRoutine env s).1.dist2 = sample_dist env
        ((s.input.get_u64 "n-2:shiny.number").getD 0)
        ((s.input.get_f64 "mean-2:shiny.number").getD 0)
        ((s.input.get_f64 "sd-2:shiny.number").getD (1/10)))
    ∧ (s.input.get_u64 "n-1:shiny.number" = none →
        s.input.get_f64 "mean-1:shiny.number" = none →
        s.input.get_f64 "sd-1:shiny.number" = none →
        (initializeRoutine env s).1.dist1 = sample_dist env 0 0 (1/10))
    ∧ (s.input.get_u64 "n-2:shiny.number" = none →
        s.input.get_f64 "mean-2:shiny.number" = none →
        s.input.get_f64 "sd-2:shiny.number" = none →
        (initializeRoutine env s).1.dist2 = sample_dist env 0 0 (1/10)) := by
  refine ⟨?_, rfl, rfl, ?_, ?_⟩
  · simp [initializeRoutine, enqueue]
  · intro h1 h2 h3
    simp [initializeRoutine, h1, h2, h3]
  · intro h1 h2 h3
    simp [initializeRoutine, h1, h2, h3]

/-- Witness for C9: on the fresh session, whose pool is empty, initialize
emits the single plot1 render and samples with the default arguments. -/
theorem initialize_defaults_check :
    (initializeRoutine env0 CustomServer.new).2 =
      [UICommand.render "plot1"
        (env0.get_plot (initializeRoutine env0 CustomServer.new).1.dist1
          (initializeRoutine env0 CustomServer.new).1.dist2)]
    ∧ (initializeRoutine env0 CustomServer.new).1.dist1 =
        sample_dist env0 0 0 (1/10) :=
  ⟨(initialize_single_render_and_defaults env0 CustomServer.new).1,
   (initialize_single_render_and_defaults env0 CustomServer.new).2.2.2.1
     rfl rfl rfl⟩

/-- C10: a triggered text1 block enqueues an UpdateInput to text2 whose
label is text1's current string value (empty when absent or mismatched),
symmetrically for text2, and the text blocks leave the server state
untouched: the cycle's final state is determined by the two group blocks
alone. -/
theorem text_blocks_mirror_and_no_state_change (env : Env)
    (s : CustomServer) (c : Cursors) :
    (fires s.input c.text1 depsText1 = true →
      UICommand.updateInput "text2"
        [("label", (s.input.get_string "text1").getD "")] ∈ (update env s c).2.2)
    ∧ (fires s.input c.text2 depsText2 = true →
      UICommand.updateInput "text1"
        [("label", (s.input.get_string "text2").getD "")] ∈ (update env s c).2.2)
    ∧ ((update env s c).1 =
        (blockGroup2 env s.input c.group2
          (blockGroup1 env s.input c.group1 s).1).1) := by
  refine ⟨?_, ?_, ?_⟩
  · intro h
    rw [update_decomp]
    simp [List.mem_append, blockText1_fired s.input c.text1 h]
  · intro h
    rw [update_decomp]
    simp [List.mem_append, blockText2_fired s.input c.text2 h]
  · rw [update_decomp]

/-- Witness for C10: a session with text1 written emits the mirror
UpdateInput to text2. -/
theorem text_blocks_mirror_check :
    UICommand.updateInput "text2"
      [("label", (sText.input.get_string "text1").getD "")]
      ∈ (update env0 sText cursors0).2.2 :=
  (text_blocks_mirror_and_no_state_change env0 sText cursors0).1 (by decide)

end ShinyRs
